import Mathlib

/-!
Shallow embedding of `src/app.py` (a Flask + MongoDB CRUD service).

The service exposes:
  * `GET /get/unisys/payroll`, `GET /get/ibm/shipping` — fetch all documents
    of a collection with the `_id` field projected away;
  * `POST /update/unisys/payroll`, `POST /update/ibm/shipping` — single-field
    `update_one` keyed by `crewMemberId` / `shippingId`;
  * `GET /logs` — tail of the log file (last 100 lines);
  * `GET /health` — four independent sub-checks;
  * a uniform envelope helper `safe_response`.

Modelling conventions:
  * JSON values are the inductive `Json` below; Python truthiness is
    `Json.truthy`.
  * Effects of the external MongoDB driver (`ping`, `find`, `update_one`,
    `count_documents`) are passed to each handler as explicit outcomes
    (`Except String _` for operations that can raise) or are modelled as pure
    functions over an explicit store, following MongoDB's documented
    semantics for the specific filter/update shapes the source uses.
  * Documents are association lists of `Json` keys and values.  A dotted
    field path supplied by the caller is treated as one opaque key: no claim
    below depends on path navigation inside nested subdocuments.
-/

/-- JSON values, as produced by parsing a request body or stored in a
document. -/
inductive Json where
  | null
  | bool (b : Bool)
  | num (n : Int)
  | str (s : String)
  | arr (elems : List Json)
  | obj (fields : List (String × Json))

mutual

/-- Decidable equality on `Json` (the derive handler does not support the
nested occurrences in `arr`/`obj`). -/
def Json.decEq : (a b : Json) → Decidable (a = b)
  | .null, .null => .isTrue rfl
  | .null, .bool _ => .isFalse nofun
  | .null, .num _ => .isFalse nofun
  | .null, .str _ => .isFalse nofun
  | .null, .arr _ => .isFalse nofun
  | .null, .obj _ => .isFalse nofun
  | .bool _, .null => .isFalse nofun
  | .bool a, .bool b =>
    if h : a = b then .isTrue (h ▸ rfl)
    else .isFalse (fun hh => h (Json.bool.inj hh))
  | .bool _, .num _ => .isFalse nofun
  | .bool _, .str _ => .isFalse nofun
  | .bool _, .arr _ => .isFalse nofun
  | .bool _, .obj _ => .isFalse nofun
  | .num _, .null => .isFalse nofun
  | .num _, .bool _ => .isFalse nofun
  | .num a, .num b =>
    if h : a = b then .isTrue (h ▸ rfl)
    else .isFalse (fun hh => h (Json.num.inj hh))
  | .num _, .str _ => .isFalse nofun
  | .num _, .arr _ => .isFalse nofun
  | .num _, .obj _ => .isFalse nofun
  | .str _, .null => .isFalse nofun
  | .str _, .bool _ => .isFalse nofun
  | .str _, .num _ => .isFalse nofun
  | .str a, .str b =>
    if h : a = b then .isTrue (h ▸ rfl)
    else .isFalse (fun hh => h (Json.str.inj hh))
  | .str _, .arr _ => .isFalse nofun
  | .str _, .obj _ => .isFalse nofun
  | .arr _, .null => .isFalse nofun
  | .arr _, .bool _ => .isFalse nofun
  | .arr _, .num _ => .isFalse nofun
  | .arr _, .str _ => .isFalse nofun
  | .arr a, .arr b =>
    match Json.decEqList a b with
    | .isTrue h => .isTrue (h ▸ rfl)
    | .isFalse h => .isFalse (fun hh => h (Json.arr.inj hh))
  | .arr _, .obj _ => .isFalse nofun
  | .obj _, .null => .isFalse nofun
  | .obj _, .bool _ => .isFalse nofun
  | .obj _, .num _ => .isFalse nofun
  | .obj _, .str _ => .isFalse nofun
  | .obj _, .arr _ => .isFalse nofun
  | .obj a, .obj b =>
    match Json.decEqFields a b with
    | .isTrue h => .isTrue (h ▸ rfl)
    | .isFalse h => .isFalse (fun hh => h (Json.obj.inj hh))

/-- Decidable equality on lists of `Json`. -/
def Json.decEqList : (a b : List Json) → Decidable (a = b)
  | [], [] => .isTrue rfl
  | [], _ :: _ => .isFalse nofun
  | _ :: _, [] => .isFalse nofun
  | x :: xs, y :: ys =>
    match Json.decEq x y with
    | .isFalse h => .isFalse (fun hh => h (List.head_eq_of_cons_eq hh))
    | .isTrue h1 =>
      match Json.decEqList xs ys with
      | .isTrue h2 => .isTrue (h1 ▸ h2 ▸ rfl)
      | .isFalse h => .isFalse (fun hh => h (List.tail_eq_of_cons_eq hh))

/-- Decidable equality on the field lists of JSON objects. -/
def Json.decEqFields : (a b : List (String × Json)) → Decidable (a = b)
  | [], [] => .isTrue rfl
  | [], _ :: _ => .isFalse nofun
  | _ :: _, [] => .isFalse nofun
  | (k, x) :: xs, (k', y) :: ys =>
    if hk : k = k' then
      match Json.decEq x y with
      | .isFalse h =>
        .isFalse (fun hh => h (congrArg Prod.snd (List.head_eq_of_cons_eq hh)))
      | .isTrue h1 =>
        match Json.decEqFields xs ys with
        | .isTrue h2 => .isTrue (hk ▸ h1 ▸ h2 ▸ rfl)
        | .isFalse h => .isFalse (fun hh => h (List.tail_eq_of_cons_eq hh))
    else
      .isFalse (fun hh => hk (congrArg Prod.fst (List.head_eq_of_cons_eq hh)))

end

instance : DecidableEq Json := Json.decEq

/-- Python truthiness of a JSON value: `None`, `False`, `0`, `""`, `[]` and
`{}` are falsy, everything else is truthy.  The handlers test request fields
with `if not emp_id or not field_path`. -/
def Json.truthy : Json → Bool
  | .null => false
  | .bool b => b
  | .num n => n != 0
  | .str s => !s.isEmpty
  | .arr elems => !elems.isEmpty
  | .obj fields => !fields.isEmpty

/-- `dict.get(key)` on a parsed JSON body: the value at `key`, or Python's
`None` (modelled as `Json.null`) when the key is absent. -/
def pyGet (body : List (String × Json)) (key : String) : Json :=
  match body.lookup key with
  | some v => v
  | none => Json.null

/-! ## The response envelope (`safe_response`, src/app.py lines 53-59) -/

/-- An HTTP response of this API: the JSON body
`{"success": ..., "message": ..., "data": ...}` together with the status
code that `safe_response` pairs with it. -/
structure Resp where
  success : Bool
  message : String
  data : Json
  code : Nat
deriving DecidableEq

/-- Python default for the `data` parameter of `safe_response` (`data=None`). -/
def safe_response_data_default : Option Json := none

/-- Python default for the `code` parameter of `safe_response` (`code=200`). -/
def safe_response_code_default : Nat := 200

/-- `safe_response(success, message, data=None, code=200)`: the body is
`{"success": success, "message": message, "data": data if data else {}}`.
`data if data else {}` is a Python truthiness test: an absent (`None`) or
falsy payload is replaced by the empty object.  Call sites that omit a
parameter pass `safe_response_data_default` / `safe_response_code_default`
here. -/
def safe_response (success : Bool) (message : String) (data : Option Json)
    (code : Nat) : Resp :=
  Resp.mk success message
    (match data with
     | some d => if d.truthy then d else Json.obj []
     | none => Json.obj [])
    code

/-! ## Read handlers (`get_payroll`, `get_shipping`, src/app.py lines 63-90)

A stored document, as returned by the driver's `find`, is a list of
(key, value) fields, possibly including the internal `"_id"` field. -/

/-- `find({}, {"_id": 0})`: every document of the collection with the `_id`
field excluded (MongoDB projection with `_id: 0`). -/
def findNoId (coll : List (List (String × Json))) : List (List (String × Json)) :=
  coll.map (fun d => d.filter (fun kv => kv.1 ≠ "_id"))

/-- `GET /get/unisys/payroll`.  `ping` is the outcome of
`client.admin.command("ping")` and `query` the outcome of reading the
collection's documents (it fails when the collection handle is unset or the
driver raises); any exception falls to the 500 envelope. -/
def get_payroll (ping : Except String Unit)
    (query : Except String (List (List (String × Json)))) : Resp :=
  match ping with
  | .error _ => safe_response false "Error fetching payroll records"
      safe_response_data_default 500
  | .ok _ =>
    match query with
    | .error _ => safe_response false "Error fetching payroll records"
        safe_response_data_default 500
    | .ok docs =>
      safe_response true "Payroll records fetched"
        (some (Json.arr ((findNoId docs).map Json.obj)))
        safe_response_code_default

/-- `GET /get/ibm/shipping`: same shape as `get_payroll` over the `ibmzowe`
collection. -/
def get_shipping (ping : Except String Unit)
    (query : Except String (List (List (String × Json)))) : Resp :=
  match ping with
  | .error _ => safe_response false "Error fetching shipping records"
      safe_response_data_default 500
  | .ok _ =>
    match query with
    | .error _ => safe_response false "Error fetching shipping records"
        safe_response_data_default 500
    | .ok docs =>
      safe_response true "Shipping records fetched"
        (some (Json.arr ((findNoId docs).map Json.obj)))
        safe_response_code_default

/-! ## MongoDB `update_one` over an explicit store

Documents are association lists keyed by `Json` (a caller-supplied dotted
field path is kept as one opaque key — see the header).  The filters the
source uses are equality filters, so a document matches when the addressed
field equals the given value; MongoDB's equality filter also matches a
missing field when the queried value is `null`. -/

/-- First value bound to `key`, if any. -/
def assocLookup (fields : List (Json × Json)) (key : Json) : Option Json :=
  match fields with
  | [] => none
  | (k, v) :: rest => if k = key then some v else assocLookup rest key

/-- MongoDB `$set` of a single (opaque) key: replace the first binding of
`key`, or append one when the key is absent. -/
def setAssoc (fields : List (Json × Json)) (key : Json) (v : Json) :
    List (Json × Json) :=
  match fields with
  | [] => [(key, v)]
  | (k, w) :: rest =>
    if k = key then (key, v) :: rest else (k, w) :: setAssoc rest key v

/-- MongoDB equality filter on one field: the stored value equals the
queried one, or the field is missing and the queried value is `null`. -/
def fieldMatches (fields : List (Json × Json)) (key : Json) (queried : Json) :
    Bool :=
  match assocLookup fields key with
  | some v => v = queried
  | none => queried = Json.null

/-- The result object of `update_one`: `matched_count` and
`modified_count`. -/
structure UpdateResult where
  matched_count : Nat
  modified_count : Nat
deriving DecidableEq

/-- One element of the `data.payrollRecords` array: its fields, keyed by
`Json` (the `crewMemberId` is the field at key `"crewMemberId"`). -/
abbrev PayrollRecord := List (Json × Json)

/-- A document of the `unisyseportal` collection, reduced to the
`data.payrollRecords` array — the only part the update filter and the
positional `$set` read or write. -/
abbrev PayrollDoc := List PayrollRecord

/-- Does this array element satisfy the filter
`{"data.payrollRecords.crewMemberId": emp_id}`? -/
def recordMatches (r : PayrollRecord) (emp_id : Json) : Bool :=
  fieldMatches r (Json.str "crewMemberId") emp_id

/-- Does the document match the filter (some array element's `crewMemberId`
equals `emp_id`)? -/
def payrollDocMatches (d : PayrollDoc) (emp_id : Json) : Bool :=
  d.any (fun r => recordMatches r emp_id)

/-- The positional update `{"$set": {"data.payrollRecords.$.<field>": v}}`:
`$` addresses the first array element matching the query, and only that
element's field is set. -/
def updateFirstRecord (recs : PayrollDoc) (emp_id fld v : Json) : PayrollDoc :=
  match recs with
  | [] => []
  | r :: rest =>
    if recordMatches r emp_id then setAssoc r fld v :: rest
    else r :: updateFirstRecord rest emp_id fld v

/-- `unisyseportal_col.update_one(filter, {"$set": ...})`: the first document
matching the filter gets the positional update; `matched_count` is 1 when a
document matched, and `modified_count` is 1 only when the update actually
changed that document. -/
def payroll_update_one (coll : List PayrollDoc) (emp_id fld v : Json) :
    List PayrollDoc × UpdateResult :=
  match coll with
  | [] => ([], UpdateResult.mk 0 0)
  | d :: rest =>
    if payrollDocMatches d emp_id then
      let d' := updateFirstRecord d emp_id fld v
      (d' :: rest, UpdateResult.mk 1 (if d' = d then 0 else 1))
    else
      let (rest', res) := payroll_update_one rest emp_id fld v
      (d :: rest', res)

/-- A document of the `ibmzowe` collection, reduced to its `shippingPerson`
subdocument — the only part the update filter and `$set` read or write. -/
abbrev ShippingDoc := List (Json × Json)

/-- Does the document match the filter `{"shippingPerson.id": shipping_id}`? -/
def shippingDocMatches (d : ShippingDoc) (shipping_id : Json) : Bool :=
  fieldMatches d (Json.str "id") shipping_id

/-- `ibmzowe_col.update_one(filter, {"$set": {"shippingPerson.<field>": v}})`. -/
def shipping_update_one (coll : List ShippingDoc) (shipping_id fld v : Json) :
    List ShippingDoc × UpdateResult :=
  match coll with
  | [] => ([], UpdateResult.mk 0 0)
  | d :: rest =>
    if shippingDocMatches d shipping_id then
      let d' := setAssoc d fld v
      (d' :: rest, UpdateResult.mk 1 (if d' = d then 0 else 1))
    else
      let (rest', res) := shipping_update_one rest shipping_id fld v
      (d :: rest', res)

/-! ## Update handlers (`update_payroll`, `update_shipping`,
src/app.py lines 93-144) -/

/-- What one call to an update handler produced: the HTTP response, the
store after the call, and whether an `update_one` was issued at all. -/
structure UpdateOutcome (σ : Type) where
  resp : Resp
  store : σ
  wrote : Bool
deriving DecidableEq

/-- `POST /update/unisys/payroll`.  The probe runs first; `request.json`
raises on a missing or unparsable body (`body = .error _`), landing in the
generic 500 branch.  With a parsed body, `crewMemberId` and `field` are
read with `dict.get` and checked for truthiness before `update_one` runs. -/
def update_payroll (ping : Except String Unit)
    (body : Except String (List (String × Json)))
    (coll : List PayrollDoc) : UpdateOutcome (List PayrollDoc) :=
  match ping with
  | .error _ =>
    UpdateOutcome.mk
      (safe_response false "Error updating payroll" safe_response_data_default 500)
      coll false
  | .ok _ =>
    match body with
    | .error _ =>
      UpdateOutcome.mk
        (safe_response false "Error updating payroll" safe_response_data_default 500)
        coll false
    | .ok data =>
      let emp_id := pyGet data "crewMemberId"
      let field_path := pyGet data "field"
      let new_value := pyGet data "value"
      if !emp_id.truthy || !field_path.truthy then
        UpdateOutcome.mk
          (safe_response false "Missing required fields" safe_response_data_default 400)
          coll false
      else
        let (coll', result) := payroll_update_one coll emp_id field_path new_value
        UpdateOutcome.mk
          (safe_response true "Payroll updated"
            (some (Json.obj
              [("matched", Json.num result.matched_count),
               ("modified", Json.num result.modified_count)]))
            safe_response_code_default)
          coll' true

/-- `POST /update/ibm/shipping`: same shape as `update_payroll`, keyed by
`shippingId` and writing under `shippingPerson`. -/
def update_shipping (ping : Except String Unit)
    (body : Except String (List (String × Json)))
    (coll : List ShippingDoc) : UpdateOutcome (List ShippingDoc) :=
  match ping with
  | .error _ =>
    UpdateOutcome.mk
      (safe_response false "Error updating shipping" safe_response_data_default 500)
      coll false
  | .ok _ =>
    match body with
    | .error _ =>
      UpdateOutcome.mk
        (safe_response false "Error updating shipping" safe_response_data_default 500)
        coll false
    | .ok data =>
      let shipping_id := pyGet data "shippingId"
      let field_path := pyGet data "field"
      let new_value := pyGet data "value"
      if !shipping_id.truthy || !field_path.truthy then
        UpdateOutcome.mk
          (safe_response false "Missing required fields" safe_response_data_default 400)
          coll false
      else
        let (coll', result) := shipping_update_one coll shipping_id field_path new_value
        UpdateOutcome.mk
          (safe_response true "Shipping updated"
            (some (Json.obj
              [("matched", Json.num result.matched_count),
               ("modified", Json.num result.modified_count)]))
            safe_response_code_default)
          coll' true

/-! ## Logs endpoint (`get_logs`, src/app.py lines 148-160) -/

/-- The state the `/logs` handler can observe: the file is absent
(`os.path.exists` is false), or it is present with its lines (each line of
`readlines()` keeps its trailing newline), or reading it raises. -/
inductive LogFile where
  | absent
  | present (lines : List String)
  | readError (e : String)

/-- Python `xs[-100:]`: the last `min 100 (length xs)` elements. -/
def lastHundred (xs : List String) : List String :=
  xs.drop (xs.length - 100)

/-- `GET /logs`: 404 when the file does not exist, otherwise the last 100
lines of `readlines()` in a success envelope; any exception while reading
falls to the 500 envelope. -/
def get_logs (file : LogFile) : Resp :=
  match file with
  | .absent => safe_response false "Log file not found" safe_response_data_default 404
  | .readError _ => safe_response false "Error fetching logs" safe_response_data_default 500
  | .present lines =>
    safe_response true "Logs fetched"
      (some (Json.arr ((lastHundred lines).map Json.str)))
      safe_response_code_default

/-! ## Health check (`health_check`, src/app.py lines 163-205) -/

/-- One sub-check of `/health`: `{"status": ..., "message": ...}`. -/
structure SubCheck where
  status : String
  message : String
deriving DecidableEq

/-- The body of `/health` (a fixed-shape object, not the envelope). -/
structure HealthReport where
  flask : SubCheck
  mongodb : SubCheck
  unisys_collection : SubCheck
  ibm_collection : SubCheck
  overall_status : String
deriving DecidableEq

/-- `GET /health`: the four sub-checks run in sequence, each failure caught
on its own and flipping `overall_status` to `"unhealthy"`; the status code
is 200 exactly when `overall_status` stays `"healthy"`.  `ping` is the
outcome of `client.admin.command("ping")`, `ucount`/`icount` the outcomes
of `count_documents({})` on the two collections (the carried `String` is
`str(e)`, which the source stores in the sub-check's `message`). -/
def health_check (ping : Except String Unit) (ucount : Except String Nat)
    (icount : Except String Nat) : HealthReport × Nat :=
  let overall0 := "healthy"
  let flask := SubCheck.mk "healthy" "Flask app is running"
  let (mongodb, overall1) :=
    match ping with
    | .ok _ => (SubCheck.mk "healthy" "MongoDB connection OK", overall0)
    | .error e => (SubCheck.mk "unhealthy" e, "unhealthy")
  let (unisys, overall2) :=
    match ucount with
    | .ok n =>
      (SubCheck.mk "healthy" ("Unisys collection has " ++ toString n ++ " records"),
       overall1)
    | .error e => (SubCheck.mk "unhealthy" e, "unhealthy")
  let (ibm, overall3) :=
    match icount with
    | .ok n =>
      (SubCheck.mk "healthy" ("IBM collection has " ++ toString n ++ " records"),
       overall2)
    | .error e => (SubCheck.mk "unhealthy" e, "unhealthy")
  (HealthReport.mk flask mongodb unisys ibm overall3,
   if overall3 = "healthy" then 200 else 500)

/-! ## Module initialization (src/app.py lines 34-49) -/

/-- A Python exception escaping the MongoDB setup block: the source's
`except` clause catches exactly `errors.ConnectionFailure`. -/
inductive PyError where
  | connectionFailure (msg : String)
  | otherError (msg : String)

/-- What the module-level `try` block leaves behind: either both collection
handles set (`true`) or both left `None` after a caught
`ConnectionFailure` (`false`). -/
structure InitState where
  collections_set : Bool
deriving DecidableEq

/-- Modelled from the spec: `MongoClient(uri)` is the external driver's
constructor, which connects lazily — with the configuration value absent
(`os.getenv` returns `None`) it falls back to the default host and does not
raise; connectivity is only checked by later commands.  (The constructor
itself is not code of this repository.) -/
def MongoClient_new (_uri : Option String) : Except PyError Unit :=
  Except.ok ()

/-- The module-level MongoDB setup: construct the client and bind the two
collection handles; a `ConnectionFailure` is caught and leaves both handles
`None`; any other exception escapes and the import fails. -/
def module_init (construct : Except PyError Unit) : Except PyError InitState :=
  match construct with
  | .ok _ => .ok (InitState.mk true)
  | .error (.connectionFailure _) => .ok (InitState.mk false)
  | .error (.otherError e) => .error (.otherError e)

/-! ## Helper lemmas about the store operations -/

/-- A nonempty JSON object is truthy. -/
theorem Json.truthy_obj_cons (kv : String × Json) (rest : List (String × Json)) :
    (Json.obj (kv :: rest)).truthy = true := rfl

/-- A nonempty JSON array is truthy. -/
theorem Json.truthy_arr_cons (x : Json) (rest : List Json) :
    (Json.arr (x :: rest)).truthy = true := rfl

theorem payroll_update_one_of_not_matched (coll : List PayrollDoc)
    (id fld v : Json) (h : ∀ d ∈ coll, payrollDocMatches d id = false) :
    payroll_update_one coll id fld v = (coll, UpdateResult.mk 0 0) := by
  induction coll with
  | nil => rfl
  | cons d rest ih =>
    have hd := h d (List.mem_cons_self d rest)
    have hrest : ∀ x ∈ rest, payrollDocMatches x id = false :=
      fun x hx => h x (List.mem_cons_of_mem d hx)
    simp [payroll_update_one, hd, ih hrest]

theorem shipping_update_one_of_not_matched (coll : List ShippingDoc)
    (id fld v : Json) (h : ∀ d ∈ coll, shippingDocMatches d id = false) :
    shipping_update_one coll id fld v = (coll, UpdateResult.mk 0 0) := by
  induction coll with
  | nil => rfl
  | cons d rest ih =>
    have hd := h d (List.mem_cons_self d rest)
    have hrest : ∀ x ∈ rest, shippingDocMatches x id = false :=
      fun x hx => h x (List.mem_cons_of_mem d hx)
    simp [shipping_update_one, hd, ih hrest]

/-! ## C1 and C2: validation and unmatched identifiers -/

/-- C1.  For every POST to `/update/unisys/payroll` or `/update/ibm/shipping`
whose (parsed) JSON body is missing the identifier (`crewMemberId` /
`shippingId`) or carries a falsy one, or is missing the `field` entry or
carries a falsy one, the handler returns the envelope
`{success: false, message: "Missing required fields"}` with HTTP status 400,
the store is untouched and no `update_one` is issued.  (`pyGet` yields
`None`, which is falsy, for a missing key, so "missing" and "falsy" collapse
into the truthiness test.) -/
theorem update_missing_required_fields
    (dataP dataS : List (String × Json))
    (pcoll : List PayrollDoc) (scoll : List ShippingDoc)
    (hP : (pyGet dataP "crewMemberId").truthy = false ∨
      (pyGet dataP "field").truthy = false)
    (hS : (pyGet dataS "shippingId").truthy = false ∨
      (pyGet dataS "field").truthy = false) :
    update_payroll (Except.ok ()) (Except.ok dataP) pcoll =
      UpdateOutcome.mk
        (Resp.mk false "Missing required fields" (Json.obj []) 400) pcoll false
    ∧ update_shipping (Except.ok ()) (Except.ok dataS) scoll =
      UpdateOutcome.mk
        (Resp.mk false "Missing required fields" (Json.obj []) 400) scoll false := by
  constructor
  · rcases hP with h | h <;>
      simp [update_payroll, h, safe_response, safe_response_data_default]
  · rcases hS with h | h <;>
      simp [update_shipping, h, safe_response, safe_response_data_default]

/-- Witness for C1: a body that names the identifier but with an empty-string
value, and a body lacking the `field` key, both get the 400 envelope. -/
theorem update_missing_required_fields_witness :
    update_payroll (Except.ok ()) (Except.ok [("crewMemberId", Json.str "")])
        [] =
      UpdateOutcome.mk
        (Resp.mk false "Missing required fields" (Json.obj []) 400) [] false
    ∧ update_shipping (Except.ok ())
        (Except.ok [("shippingId", Json.str "S1"), ("value", Json.num 3)]) [] =
      UpdateOutcome.mk
        (Resp.mk false "Missing required fields" (Json.obj []) 400) [] false :=
  update_missing_required_fields
    [("crewMemberId", Json.str "")]
    [("shippingId", Json.str "S1"), ("value", Json.num 3)] [] []
    (by decide) (by decide)

/-- C2.  A valid update request (identifier and field truthy, probe
succeeded) whose identifier matches no document is not an error: the
response is the 200 success envelope with `data = {matched: 0, modified: 0}`,
and the store is unchanged (an `update_one` was issued but wrote nothing). -/
theorem update_unmatched_identifier_ok
    (dataP dataS : List (String × Json))
    (pcoll : List PayrollDoc) (scoll : List ShippingDoc)
    (hP1 : (pyGet dataP "crewMemberId").truthy = true)
    (hP2 : (pyGet dataP "field").truthy = true)
    (hP3 : ∀ d ∈ pcoll, payrollDocMatches d (pyGet dataP "crewMemberId") = false)
    (hS1 : (pyGet dataS "shippingId").truthy = true)
    (hS2 : (pyGet dataS "field").truthy = true)
    (hS3 : ∀ d ∈ scoll, shippingDocMatches d (pyGet dataS "shippingId") = false) :
    update_payroll (Except.ok ()) (Except.ok dataP) pcoll =
      UpdateOutcome.mk
        (Resp.mk true "Payroll updated"
          (Json.obj [("matched", Json.num 0), ("modified", Json.num 0)]) 200)
        pcoll true
    ∧ update_shipping (Except.ok ()) (Except.ok dataS) scoll =
      UpdateOutcome.mk
        (Resp.mk true "Shipping updated"
          (Json.obj [("matched", Json.num 0), ("modified", Json.num 0)]) 200)
        scoll true := by
  constructor
  · simp [update_payroll, hP1, hP2,
      payroll_update_one_of_not_matched pcoll _ _ _ hP3,
      safe_response, safe_response_code_default, Json.truthy_obj_cons]
  · simp [update_shipping, hS1, hS2,
      shipping_update_one_of_not_matched scoll _ _ _ hS3,
      safe_response, safe_response_code_default, Json.truthy_obj_cons]

/-- Witness for C2: a well-formed request against a store whose only
document carries a different identifier. -/
theorem update_unmatched_identifier_ok_witness :
    update_payroll (Except.ok ())
      (Except.ok [("crewMemberId", Json.str "E9"), ("field", Json.str "pay"),
        ("value", Json.num 7)])
      [[[(Json.str "crewMemberId", Json.str "E1")]]] =
      UpdateOutcome.mk
        (Resp.mk true "Payroll updated"
          (Json.obj [("matched", Json.num 0), ("modified", Json.num 0)]) 200)
        [[[(Json.str "crewMemberId", Json.str "E1")]]] true
    ∧ update_shipping (Except.ok ())
      (Except.ok [("shippingId", Json.str "S9"), ("field", Json.str "address"),
        ("value", Json.str "X")])
      [[(Json.str "id", Json.str "S1")]] =
      UpdateOutcome.mk
        (Resp.mk true "Shipping updated"
          (Json.obj [("matched", Json.num 0), ("modified", Json.num 0)]) 200)
        [[(Json.str "id", Json.str "S1")]] true :=
  update_unmatched_identifier_ok
    [("crewMemberId", Json.str "E9"), ("field", Json.str "pay"),
      ("value", Json.num 7)]
    [("shippingId", Json.str "S9"), ("field", Json.str "address"),
      ("value", Json.str "X")]
    [[[(Json.str "crewMemberId", Json.str "E1")]]]
    [[(Json.str "id", Json.str "S1")]]
    (by decide) (by decide) (by decide) (by decide) (by decide) (by decide)

/-! ## C3: the envelope builder -/

/-- Counterexample to C3 as stated: the payload `false` is supplied and is
neither absent nor an empty container, yet `data if data else {}` replaces
every *falsy* payload — so `data` becomes the empty object instead of the
given payload. -/
theorem safe_response_falsy_payload_cex :
    safe_response true "m" (some (Json.bool false)) 200 =
      Resp.mk true "m" (Json.obj []) 200
    ∧ Json.obj [] ≠ Json.bool false := by decide

/-- C3 (amended).  `safe_response` pairs the body
`{success, message, data}` with the given status code, leaving the flag and
message untouched; `data` equals the payload when one is given and truthy,
and is the empty object (not null, not omitted) when the payload is absent
*or falsy* (Python truthiness: `None`, `False`, `0`, `""`, `[]`, `{}`); a
call site that omits the code passes `safe_response_code_default = 200`. -/
theorem safe_response_envelope (s : Bool) (m : String) (d : Json)
    (payload : Option Json) (code : Nat) :
    (safe_response s m payload code).success = s
    ∧ (safe_response s m payload code).message = m
    ∧ (safe_response s m payload code).code = code
    ∧ (d.truthy = true → (safe_response s m (some d) code).data = d)
    ∧ (d.truthy = false → (safe_response s m (some d) code).data = Json.obj [])
    ∧ (safe_response s m none code).data = Json.obj []
    ∧ (safe_response s m payload safe_response_code_default).code = 200 := by
  refine ⟨?_, ?_, ?_, fun h => ?_, fun h => ?_, ?_, ?_⟩ <;>
    first
      | simp [safe_response, h]
      | (cases payload <;> simp [safe_response, safe_response_code_default])

/-! ## C4: the logs endpoint -/

/-- Counterexample to C4 as stated: on an *empty* log file the claimed
`data` is the file's full content, the empty sequence of lines — but the
envelope's truthiness test turns the empty list into the empty object. -/
theorem get_logs_empty_file_cex :
    get_logs (LogFile.present []) =
      Resp.mk true "Logs fetched" (Json.obj []) 200
    ∧ Json.obj [] ≠ Json.arr [] := by decide

/-- C4 (amended).  `/logs` returns 404 with message "Log file not found"
when the file does not exist and 500 with message "Error fetching logs" on
an I/O exception; otherwise it returns a success envelope whose data is the
last 100 lines (each line kept as `readlines` produced it, trailing newline
included): at most 100 entries for any file, and exactly the file's full
content when the file has at most 100 lines — except that for an *empty*
file the envelope rule renders `data` as the empty object rather than an
empty array. -/
theorem get_logs_spec (lines : List String) (e : String) :
    get_logs LogFile.absent =
      Resp.mk false "Log file not found" (Json.obj []) 404
    ∧ get_logs (LogFile.readError e) =
      Resp.mk false "Error fetching logs" (Json.obj []) 500
    ∧ (lines ≠ [] → get_logs (LogFile.present lines) =
        Resp.mk true "Logs fetched"
          (Json.arr ((lastHundred lines).map Json.str)) 200)
    ∧ (lastHundred lines).length ≤ 100
    ∧ (lines.length ≤ 100 → lastHundred lines = lines)
    ∧ get_logs (LogFile.present []) =
      Resp.mk true "Logs fetched" (Json.obj []) 200 := by
  refine ⟨rfl, rfl, fun h => ?_, ?_, fun h => ?_, rfl⟩
  · match lines, h with
    | l :: rest, _ =>
      have hne : lastHundred (l :: rest) ≠ [] := by
        simp only [lastHundred]
        intro hc
        have := congrArg List.length hc
        simp [List.length_drop] at this
        omega
      match hl : lastHundred (l :: rest), hne with
      | x :: xs, _ =>
        simp [get_logs, hl, safe_response, safe_response_code_default,
          Json.truthy_arr_cons]
  · simp only [lastHundred, List.length_drop]
    omega
  · simp only [lastHundred]
    have : lines.length - 100 = 0 := by omega
    simp [this]

/-! ## C5: the health check -/

/-- C5.  Each `/health` sub-check is isolated: `flask` is the fixed healthy
entry whenever the handler runs, and each of the other three sub-check
entries is a function of its own outcome alone (changing the other two
outcomes does not change it), so a failing check never prevents the others
from being evaluated and reported.  `overall_status` is `"unhealthy"` iff at
least one sub-check fails, and the HTTP status mirrors it: 200 when
`"healthy"`, 500 otherwise. -/
theorem health_check_spec (p p' : Except String Unit)
    (u u' i i' : Except String Nat) :
    (health_check p u i).1.flask = SubCheck.mk "healthy" "Flask app is running"
    ∧ (health_check p u i).1.mongodb = (health_check p u' i').1.mongodb
    ∧ (health_check p u i).1.unisys_collection =
        (health_check p' u i').1.unisys_collection
    ∧ (health_check p u i).1.ibm_collection =
        (health_check p' u' i).1.ibm_collection
    ∧ (health_check p u i).1.mongodb.status =
        (if p.isOk then "healthy" else "unhealthy")
    ∧ (health_check p u i).1.unisys_collection.status =
        (if u.isOk then "healthy" else "unhealthy")
    ∧ (health_check p u i).1.ibm_collection.status =
        (if i.isOk then "healthy" else "unhealthy")
    ∧ ((health_check p u i).1.overall_status = "unhealthy" ↔
        ¬(p.isOk = true ∧ u.isOk = true ∧ i.isOk = true))
    ∧ ((health_check p u i).2 =
        if (health_check p u i).1.overall_status = "healthy" then 200 else 500)
    ∧ ((health_check p u i).2 = 200 ↔
        (p.isOk = true ∧ u.isOk = true ∧ i.isOk = true)) := by
  cases p <;> cases u <;> cases i <;> cases p' <;> cases u' <;> cases i' <;>
    simp [health_check, Except.isOk, Except.toBool]

/-! ## C6: backend errors and the information-hiding policy -/

/-- Counterexample to C6 as stated: `/health` copies `str(e)` into the
failing sub-check's `message`, so the underlying exception's detail (here
`"boom"`) appears verbatim in a field of the HTTP response body. -/
theorem health_check_leaks_detail_cex :
    (health_check (Except.error "boom") (Except.ok 1) (Except.ok 1)).1.mongodb =
      SubCheck.mk "unhealthy" "boom" := rfl

/-- C6 (amended).  For every backend exception raised in a handler that
answers with the standard envelope (both read handlers, both update
handlers, `/logs`), the response is a fixed constant — message, body and
status do not depend on the exception's detail `e` at all, so no detail can
leak; `/health` is the exception to the policy: a failing sub-check's
`message` is `str(e)` (see the counterexample). -/
theorem envelope_errors_fixed_message (e : String)
    (q : Except String (List (List (String × Json))))
    (body : Except String (List (String × Json)))
    (pcoll : List PayrollDoc) (scoll : List ShippingDoc) :
    get_payroll (Except.error e) q =
      Resp.mk false "Error fetching payroll records" (Json.obj []) 500
    ∧ get_payroll (Except.ok ()) (Except.error e) =
      Resp.mk false "Error fetching payroll records" (Json.obj []) 500
    ∧ get_shipping (Except.error e) q =
      Resp.mk false "Error fetching shipping records" (Json.obj []) 500
    ∧ get_shipping (Except.ok ()) (Except.error e) =
      Resp.mk false "Error fetching shipping records" (Json.obj []) 500
    ∧ (update_payroll (Except.error e) body pcoll).resp =
      Resp.mk false "Error updating payroll" (Json.obj []) 500
    ∧ (update_payroll (Except.ok ()) (Except.error e) pcoll).resp =
      Resp.mk false "Error updating payroll" (Json.obj []) 500
    ∧ (update_shipping (Except.error e) body scoll).resp =
      Resp.mk false "Error updating shipping" (Json.obj []) 500
    ∧ (update_shipping (Except.ok ()) (Except.error e) scoll).resp =
      Resp.mk false "Error updating shipping" (Json.obj []) 500
    ∧ get_logs (LogFile.readError e) =
      Resp.mk false "Error fetching logs" (Json.obj []) 500 :=
  ⟨rfl, rfl, rfl, rfl, rfl, rfl, rfl, rfl, rfl⟩

/-! ## C8: the read handlers -/

/-- No document returned by the `_id`-excluding projection still has an
`"_id"` field. -/
theorem lookup_filter_id_none (d : List (String × Json)) :
    (d.filter (fun kv => kv.1 ≠ "_id")).lookup "_id" = none := by
  induction d with
  | nil => rfl
  | cons kv rest ih =>
    obtain ⟨k, w⟩ := kv
    by_cases hk : k = "_id"
    · have hfil : (((k, w) :: rest).filter (fun kv => kv.1 ≠ "_id")) =
          rest.filter (fun kv => kv.1 ≠ "_id") := by
        simp [List.filter_cons, hk]
      rw [hfil]
      exact ih
    · have hfil : (((k, w) :: rest).filter (fun kv => kv.1 ≠ "_id")) =
          (k, w) :: rest.filter (fun kv => kv.1 ≠ "_id") := by
        simp [List.filter_cons, hk]
      have hb : ("_id" == k) = false := beq_eq_false_iff_ne.mpr (Ne.symm hk)
      rw [hfil]
      simp [List.lookup, hb, ih]
      exact fun a b _ hne heq => hne heq.symm

/-- Counterexample to C8 as stated: on an *empty* collection the claimed
`data` is the full (empty) list of documents, but the envelope's truthiness
test turns the empty list into the empty object. -/
theorem get_payroll_empty_collection_cex :
    get_payroll (Except.ok ()) (Except.ok []) =
      Resp.mk true "Payroll records fetched" (Json.obj []) 200
    ∧ Json.obj [] ≠ Json.arr [] := by decide

/-- C8 (amended).  When the probe and the query succeed on a *nonempty*
collection, the response is the 200 success envelope whose data is the full
list of documents with the internal `_id` field excluded from each, under
the fixed "fetched" message (an empty collection yields the empty object as
data instead of an empty array, by the envelope rule); when any exception
occurs — probe or query — the response is the fixed 500 "Error fetching"
envelope. -/
theorem get_records_spec (docs : List (List (String × Json))) (e : String)
    (q : Except String (List (List (String × Json)))) :
    (docs ≠ [] → get_payroll (Except.ok ()) (Except.ok docs) =
      Resp.mk true "Payroll records fetched"
        (Json.arr ((findNoId docs).map Json.obj)) 200)
    ∧ (docs ≠ [] → get_shipping (Except.ok ()) (Except.ok docs) =
      Resp.mk true "Shipping records fetched"
        (Json.arr ((findNoId docs).map Json.obj)) 200)
    ∧ (∀ d ∈ findNoId docs, d.lookup "_id" = none)
    ∧ get_payroll (Except.error e) q =
      Resp.mk false "Error fetching payroll records" (Json.obj []) 500
    ∧ get_payroll (Except.ok ()) (Except.error e) =
      Resp.mk false "Error fetching payroll records" (Json.obj []) 500
    ∧ get_shipping (Except.error e) q =
      Resp.mk false "Error fetching shipping records" (Json.obj []) 500
    ∧ get_shipping (Except.ok ()) (Except.error e) =
      Resp.mk false "Error fetching shipping records" (Json.obj []) 500 := by
  refine ⟨fun h => ?_, fun h => ?_, ?_, rfl, rfl, rfl, rfl⟩
  · match docs, h with
    | d :: rest, _ =>
      simp [get_payroll, findNoId, safe_response, safe_response_code_default,
        Json.truthy_arr_cons]
  · match docs, h with
    | d :: rest, _ =>
      simp [get_shipping, findNoId, safe_response, safe_response_code_default,
        Json.truthy_arr_cons]
  · intro d hd
    simp only [findNoId, List.mem_map] at hd
    obtain ⟨d0, _, rfl⟩ := hd
    exact lookup_filter_id_none d0

/-! ## C9: startup without the configuration value -/

/-- C9.  With the connection-string configuration value absent, the module
still loads: the client constructor does not raise (it connects lazily) and
the collection handles are bound; a `ConnectionFailure` at setup is caught
and leaves the handles unset, also without crashing the import.  Every
data-touching route whose probe then fails answers with its standard fixed
500 envelope instead of crashing the request. -/
theorem startup_without_uri_graceful (e : String)
    (q : Except String (List (List (String × Json))))
    (body : Except String (List (String × Json)))
    (pcoll : List PayrollDoc) (scoll : List ShippingDoc) :
    module_init (MongoClient_new none) = Except.ok (InitState.mk true)
    ∧ module_init (Except.error (PyError.connectionFailure e)) =
      Except.ok (InitState.mk false)
    ∧ get_payroll (Except.error e) q =
      Resp.mk false "Error fetching payroll records" (Json.obj []) 500
    ∧ get_shipping (Except.error e) q =
      Resp.mk false "Error fetching shipping records" (Json.obj []) 500
    ∧ update_payroll (Except.error e) body pcoll =
      UpdateOutcome.mk
        (Resp.mk false "Error updating payroll" (Json.obj []) 500) pcoll false
    ∧ update_shipping (Except.error e) body scoll =
      UpdateOutcome.mk
        (Resp.mk false "Error updating shipping" (Json.obj []) 500) scoll false :=
  ⟨rfl, rfl, rfl, rfl, rfl, rfl⟩

/-! ## C10: the probe runs before the body is read or validated -/

/-- C10.  In both update handlers the connectivity probe precedes reading
and validating the body: a failing probe yields the fixed 500 "Error
updating" envelope for *every* body — parsed, unparsable, or missing its
fields — with no write; and a response with status 400 is only possible
when the probe succeeded and the body parsed as JSON. -/
theorem probe_before_validation (e : String)
    (body : Except String (List (String × Json)))
    (ping : Except String Unit)
    (pcoll : List PayrollDoc) (scoll : List ShippingDoc) :
    update_payroll (Except.error e) body pcoll =
      UpdateOutcome.mk
        (Resp.mk false "Error updating payroll" (Json.obj []) 500) pcoll false
    ∧ update_shipping (Except.error e) body scoll =
      UpdateOutcome.mk
        (Resp.mk false "Error updating shipping" (Json.obj []) 500) scoll false
    ∧ update_payroll (Except.ok ()) (Except.error e) pcoll =
      UpdateOutcome.mk
        (Resp.mk false "Error updating payroll" (Json.obj []) 500) pcoll false
    ∧ update_shipping (Except.ok ()) (Except.error e) scoll =
      UpdateOutcome.mk
        (Resp.mk false "Error updating shipping" (Json.obj []) 500) scoll false
    ∧ ((update_payroll ping body pcoll).resp.code = 400 →
        ping = Except.ok () ∧ ∃ d, body = Except.ok d)
    ∧ ((update_shipping ping body scoll).resp.code = 400 →
        ping = Except.ok () ∧ ∃ d, body = Except.ok d) := by
  refine ⟨rfl, rfl, rfl, rfl, fun h => ?_, fun h => ?_⟩
  · cases ping with
    | error e' =>
      exact absurd h (by
        simp [update_payroll, safe_response, safe_response_data_default])
    | ok u =>
      cases u
      cases body with
      | error e' =>
        exact absurd h (by
          simp [update_payroll, safe_response, safe_response_data_default])
      | ok d => exact ⟨rfl, d, rfl⟩
  · cases ping with
    | error e' =>
      exact absurd h (by
        simp [update_shipping, safe_response, safe_response_data_default])
    | ok u =>
      cases u
      cases body with
      | error e' =>
        exact absurd h (by
          simp [update_shipping, safe_response, safe_response_data_default])
      | ok d => exact ⟨rfl, d, rfl⟩

/-! ## C7: updating twice (lemmas about `setAssoc` and `update_one`) -/

theorem setAssoc_idem (f : List (Json × Json)) (k v : Json) :
    setAssoc (setAssoc f k v) k v = setAssoc f k v := by
  induction f with
  | nil => simp [setAssoc]
  | cons kv rest ih =>
    obtain ⟨k', w⟩ := kv
    by_cases hk : k' = k
    · simp [setAssoc, hk]
    · simp [setAssoc, hk, ih]

theorem assocLookup_setAssoc_of_ne (f : List (Json × Json)) (k k' v : Json)
    (h : k' ≠ k) :
    assocLookup (setAssoc f k v) k' = assocLookup f k' := by
  induction f with
  | nil => simp [setAssoc, assocLookup, Ne.symm h]
  | cons kv rest ih =>
    obtain ⟨k'', w⟩ := kv
    by_cases hk : k'' = k
    · subst hk
      simp [setAssoc, assocLookup, Ne.symm h]
    · simp [setAssoc, assocLookup, hk, ih]

theorem setAssoc_ne_of_lookup (f : List (Json × Json)) (k v : Json)
    (h : assocLookup f k ≠ some v) : setAssoc f k v ≠ f := by
  induction f with
  | nil => simp [setAssoc]
  | cons kv rest ih =>
    obtain ⟨k', w⟩ := kv
    by_cases hk : k' = k
    · subst hk
      have hw : w ≠ v := fun hwv => h (by simp [assocLookup, hwv])
      simp [setAssoc, Ne.symm hw]
    · have h' : assocLookup rest k ≠ some v := by
        simpa [assocLookup, hk] using h
      simp [setAssoc, hk]
      exact ih h'

theorem fieldMatches_setAssoc_of_ne (f : List (Json × Json))
    (key fld v queried : Json) (h : fld ≠ key) :
    fieldMatches (setAssoc f fld v) key queried = fieldMatches f key queried := by
  unfold fieldMatches
  rw [assocLookup_setAssoc_of_ne f fld key v (Ne.symm h)]

theorem updateFirstRecord_of_first_match (rpre rpost : List PayrollRecord)
    (r : PayrollRecord) (id fld v : Json)
    (hrpre : ∀ x ∈ rpre, recordMatches x id = false)
    (hr : recordMatches r id = true) :
    updateFirstRecord (rpre ++ r :: rpost) id fld v =
      rpre ++ setAssoc r fld v :: rpost := by
  induction rpre with
  | nil => simp [updateFirstRecord, hr]
  | cons x xs ih =>
    have hx := hrpre x (List.mem_cons_self x xs)
    have hxs : ∀ y ∈ xs, recordMatches y id = false :=
      fun y hy => hrpre y (List.mem_cons_of_mem x hy)
    simp [updateFirstRecord, hx, ih hxs]

theorem payroll_update_one_of_first_match (pre post : List PayrollDoc)
    (d : PayrollDoc) (id fld v : Json)
    (hpre : ∀ x ∈ pre, payrollDocMatches x id = false)
    (hd : payrollDocMatches d id = true) :
    payroll_update_one (pre ++ d :: post) id fld v =
      (pre ++ updateFirstRecord d id fld v :: post,
       UpdateResult.mk 1 (if updateFirstRecord d id fld v = d then 0 else 1)) := by
  induction pre with
  | nil => simp [payroll_update_one, hd]
  | cons x xs ih =>
    have hx := hpre x (List.mem_cons_self x xs)
    have hxs : ∀ y ∈ xs, payrollDocMatches y id = false :=
      fun y hy => hpre y (List.mem_cons_of_mem x hy)
    simp [payroll_update_one, hx, ih hxs]

theorem shipping_update_one_of_first_match (pre post : List ShippingDoc)
    (d : ShippingDoc) (id fld v : Json)
    (hpre : ∀ x ∈ pre, shippingDocMatches x id = false)
    (hd : shippingDocMatches d id = true) :
    shipping_update_one (pre ++ d :: post) id fld v =
      (pre ++ setAssoc d fld v :: post,
       UpdateResult.mk 1 (if setAssoc d fld v = d then 0 else 1)) := by
  induction pre with
  | nil => simp [shipping_update_one, hd]
  | cons x xs ih =>
    have hx := hpre x (List.mem_cons_self x xs)
    have hxs : ∀ y ∈ xs, shippingDocMatches y id = false :=
      fun y hy => hpre y (List.mem_cons_of_mem x hy)
    simp [shipping_update_one, hx, ih hxs]

/-- Two identical `update_one` calls on the payroll store: the first call
matches the one matching document and modifies it; the second matches the
same document and modifies nothing (the field already has the value). -/
theorem payroll_update_one_twice (pre post : List PayrollDoc)
    (rpre rpost : List PayrollRecord) (r : PayrollRecord) (id fld v : Json)
    (hpre : ∀ x ∈ pre, payrollDocMatches x id = false)
    (hrpre : ∀ x ∈ rpre, recordMatches x id = false)
    (hr : recordMatches r id = true)
    (hfld : fld ≠ Json.str "crewMemberId")
    (hv : assocLookup r fld ≠ some v) :
    payroll_update_one (pre ++ (rpre ++ r :: rpost) :: post) id fld v =
      (pre ++ (rpre ++ setAssoc r fld v :: rpost) :: post, UpdateResult.mk 1 1)
    ∧ payroll_update_one (pre ++ (rpre ++ setAssoc r fld v :: rpost) :: post)
        id fld v =
      (pre ++ (rpre ++ setAssoc r fld v :: rpost) :: post,
       UpdateResult.mk 1 0) := by
  have hd : payrollDocMatches (rpre ++ r :: rpost) id = true := by
    simp only [payrollDocMatches]
    exact List.any_eq_true.mpr ⟨r, by simp, hr⟩
  have hne : setAssoc r fld v ≠ r := setAssoc_ne_of_lookup r fld v hv
  have hlne : rpre ++ setAssoc r fld v :: rpost ≠ rpre ++ r :: rpost := by
    intro hc
    exact hne (List.head_eq_of_cons_eq (List.append_cancel_left hc))
  have hr' : recordMatches (setAssoc r fld v) id = true := by
    simpa only [recordMatches,
      fieldMatches_setAssoc_of_ne r (Json.str "crewMemberId") fld v id hfld]
      using hr
  have hd' : payrollDocMatches (rpre ++ setAssoc r fld v :: rpost) id = true := by
    simp only [payrollDocMatches]
    exact List.any_eq_true.mpr ⟨setAssoc r fld v, by simp, hr'⟩
  constructor
  · rw [payroll_update_one_of_first_match pre post _ id fld v hpre hd,
      updateFirstRecord_of_first_match rpre rpost r id fld v hrpre hr,
      if_neg hlne]
  · rw [payroll_update_one_of_first_match pre post _ id fld v hpre hd',
      updateFirstRecord_of_first_match rpre rpost _ id fld v hrpre hr',
      setAssoc_idem, if_pos rfl]

/-- Two identical `update_one` calls on the shipping store. -/
theorem shipping_update_one_twice (pre post : List ShippingDoc)
    (d : ShippingDoc) (id fld v : Json)
    (hpre : ∀ x ∈ pre, shippingDocMatches x id = false)
    (hd : shippingDocMatches d id = true)
    (hfld : fld ≠ Json.str "id")
    (hv : assocLookup d fld ≠ some v) :
    shipping_update_one (pre ++ d :: post) id fld v =
      (pre ++ setAssoc d fld v :: post, UpdateResult.mk 1 1)
    ∧ shipping_update_one (pre ++ setAssoc d fld v :: post) id fld v =
      (pre ++ setAssoc d fld v :: post, UpdateResult.mk 1 0) := by
  have hne : setAssoc d fld v ≠ d := setAssoc_ne_of_lookup d fld v hv
  have hd' : shippingDocMatches (setAssoc d fld v) id = true := by
    simpa only [shippingDocMatches,
      fieldMatches_setAssoc_of_ne d (Json.str "id") fld v id hfld] using hd
  constructor
  · rw [shipping_update_one_of_first_match pre post d id fld v hpre hd,
      if_neg hne]
  · rw [shipping_update_one_of_first_match pre post _ id fld v hpre hd',
      setAssoc_idem, if_pos rfl]

/-- Counterexample to C7 as stated: a valid update request against a store
whose single document matches the identifier, but whose addressed field
*already holds* the requested value — the first call already returns
`matched=1, modified=0`, not the claimed `modified=1`. -/
theorem update_same_value_first_call_cex :
    (update_payroll (Except.ok ())
      (Except.ok [("crewMemberId", Json.str "C1"), ("field", Json.str "salary"),
        ("value", Json.num 5)])
      [[[(Json.str "crewMemberId", Json.str "C1"),
         (Json.str "salary", Json.num 5)]]]).resp =
      Resp.mk true "Payroll updated"
        (Json.obj [("matched", Json.num 1), ("modified", Json.num 0)]) 200
    ∧ Json.num 0 ≠ Json.num 1 := by decide

/-- C7 (amended).  For a valid update request against a store whose first
matching document is unique up to the filter (no earlier document or array
element matches), whose addressed field is not the identifier field itself,
and whose new value *differs* from the stored one, the first call returns
`matched=1, modified=1` and the second identical call returns `matched=1,
modified=0`: setting a field to its existing value matches the document but
modifies nothing.  (Without the "differs" hypothesis the first call can
already report `modified=0` — see the counterexample.) -/
theorem update_twice_idempotence
    (dataP dataS : List (String × Json))
    (pre post : List PayrollDoc) (rpre rpost : List PayrollRecord)
    (r : PayrollRecord)
    (spre spost : List ShippingDoc) (sd : ShippingDoc)
    (hP1 : (pyGet dataP "crewMemberId").truthy = true)
    (hP2 : (pyGet dataP "field").truthy = true)
    (hP3 : pyGet dataP "field" ≠ Json.str "crewMemberId")
    (hP4 : ∀ x ∈ pre, payrollDocMatches x (pyGet dataP "crewMemberId") = false)
    (hP5 : ∀ x ∈ rpre, recordMatches x (pyGet dataP "crewMemberId") = false)
    (hP6 : recordMatches r (pyGet dataP "crewMemberId") = true)
    (hP7 : assocLookup r (pyGet dataP "field") ≠ some (pyGet dataP "value"))
    (hS1 : (pyGet dataS "shippingId").truthy = true)
    (hS2 : (pyGet dataS "field").truthy = true)
    (hS3 : pyGet dataS "field" ≠ Json.str "id")
    (hS4 : ∀ x ∈ spre, shippingDocMatches x (pyGet dataS "shippingId") = false)
    (hS5 : shippingDocMatches sd (pyGet dataS "shippingId") = true)
    (hS6 : assocLookup sd (pyGet dataS "field") ≠ some (pyGet dataS "value")) :
    (update_payroll (Except.ok ()) (Except.ok dataP)
        (pre ++ (rpre ++ r :: rpost) :: post)).resp =
      Resp.mk true "Payroll updated"
        (Json.obj [("matched", Json.num 1), ("modified", Json.num 1)]) 200
    ∧ (update_payroll (Except.ok ()) (Except.ok dataP)
        (update_payroll (Except.ok ()) (Except.ok dataP)
          (pre ++ (rpre ++ r :: rpost) :: post)).store).resp =
      Resp.mk true "Payroll updated"
        (Json.obj [("matched", Json.num 1), ("modified", Json.num 0)]) 200
    ∧ (update_shipping (Except.ok ()) (Except.ok dataS)
        (spre ++ sd :: spost)).resp =
      Resp.mk true "Shipping updated"
        (Json.obj [("matched", Json.num 1), ("modified", Json.num 1)]) 200
    ∧ (update_shipping (Except.ok ()) (Except.ok dataS)
        (update_shipping (Except.ok ()) (Except.ok dataS)
          (spre ++ sd :: spost)).store).resp =
      Resp.mk true "Shipping updated"
        (Json.obj [("matched", Json.num 1), ("modified", Json.num 0)]) 200 := by
  obtain ⟨hp1, hp2⟩ :=
    payroll_update_one_twice pre post rpre rpost r
      (pyGet dataP "crewMemberId") (pyGet dataP "field") (pyGet dataP "value")
      hP4 hP5 hP6 hP3 hP7
  obtain ⟨hs1, hs2⟩ :=
    shipping_update_one_twice spre spost sd
      (pyGet dataS "shippingId") (pyGet dataS "field") (pyGet dataS "value")
      hS4 hS5 hS3 hS6
  refine ⟨?_, ?_, ?_, ?_⟩
  · simp [update_payroll, hP1, hP2, hp1, safe_response,
      safe_response_code_default, Json.truthy_obj_cons]
  · simp [update_payroll, hP1, hP2, hp1, hp2, safe_response,
      safe_response_code_default, Json.truthy_obj_cons]
  · simp [update_shipping, hS1, hS2, hs1, safe_response,
      safe_response_code_default, Json.truthy_obj_cons]
  · simp [update_shipping, hS1, hS2, hs1, hs2, safe_response,
      safe_response_code_default, Json.truthy_obj_cons]

/-- Witness for C7 (amended): a payroll store holding one record with
`salary = 5` updated to `9` twice, and a shipping store holding one person
with `address = "A"` updated to `"X"` twice. -/
theorem update_twice_idempotence_witness :
    (update_payroll (Except.ok ())
      (Except.ok [("crewMemberId", Json.str "C1"), ("field", Json.str "salary"),
        ("value", Json.num 9)])
      [[[(Json.str "crewMemberId", Json.str "C1"),
         (Json.str "salary", Json.num 5)]]]).resp =
      Resp.mk true "Payroll updated"
        (Json.obj [("matched", Json.num 1), ("modified", Json.num 1)]) 200
    ∧ (update_payroll (Except.ok ())
        (Except.ok [("crewMemberId", Json.str "C1"), ("field", Json.str "salary"),
          ("value", Json.num 9)])
        (update_payroll (Except.ok ())
          (Except.ok [("crewMemberId", Json.str "C1"),
            ("field", Json.str "salary"), ("value", Json.num 9)])
          [[[(Json.str "crewMemberId", Json.str "C1"),
             (Json.str "salary", Json.num 5)]]]).store).resp =
      Resp.mk true "Payroll updated"
        (Json.obj [("matched", Json.num 1), ("modified", Json.num 0)]) 200
    ∧ (update_shipping (Except.ok ())
        (Except.ok [("shippingId", Json.str "S1"), ("field", Json.str "address"),
          ("value", Json.str "X")])
        [[(Json.str "id", Json.str "S1"), (Json.str "address", Json.str "A")]]).resp =
      Resp.mk true "Shipping updated"
        (Json.obj [("matched", Json.num 1), ("modified", Json.num 1)]) 200
    ∧ (update_shipping (Except.ok ())
        (Except.ok [("shippingId", Json.str "S1"), ("field", Json.str "address"),
          ("value", Json.str "X")])
        (update_shipping (Except.ok ())
          (Except.ok [("shippingId", Json.str "S1"),
            ("field", Json.str "address"), ("value", Json.str "X")])
          [[(Json.str "id", Json.str "S1"),
            (Json.str "address", Json.str "A")]]).store).resp =
      Resp.mk true "Shipping updated"
        (Json.obj [("matched", Json.num 1), ("modified", Json.num 0)]) 200 :=
  update_twice_idempotence
    [("crewMemberId", Json.str "C1"), ("field", Json.str "salary"),
      ("value", Json.num 9)]
    [("shippingId", Json.str "S1"), ("field", Json.str "address"),
      ("value", Json.str "X")]
    [] [] [] []
    [(Json.str "crewMemberId", Json.str "C1"), (Json.str "salary", Json.num 5)]
    [] []
    [(Json.str "id", Json.str "S1"), (Json.str "address", Json.str "A")]
    (by decide) (by decide) (by decide) (by decide) (by decide) (by decide)
    (by decide) (by decide) (by decide) (by decide) (by decide) (by decide)
    (by decide)
